import Mathlib

/-!
Shallow embedding of node-spdlog (src/src/logger.cc) together with a model of the
parts of the bundled spdlog library that the binding calls into (registry, logger
objects, rotating file sink).  Pure state passing replaces the NAN/V8 boundary:
a JavaScript argument is a `JsValue`, a thrown host exception is the `error` side
of `Except`, and the process-wide spdlog registry plus every constructed logger
object form a `GlobalState` threaded through each operation.
-/

set_option autoImplicit false

/-- spdlog severity constant `spdlog::level::trace` (= 0). -/
def spdlog.level.trace : Int := 0

/-- spdlog severity constant `spdlog::level::debug` (= 1). -/
def spdlog.level.debug : Int := 1

/-- spdlog severity constant `spdlog::level::info` (= 2). -/
def spdlog.level.info : Int := 2

/-- spdlog severity constant `spdlog::level::warn` (= 3). -/
def spdlog.level.warn : Int := 3

/-- spdlog severity constant `spdlog::level::err` (= 4). -/
def spdlog.level.err : Int := 4

/-- spdlog severity constant `spdlog::level::critical` (= 5). -/
def spdlog.level.critical : Int := 5

/-- spdlog severity constant `spdlog::level::off` (= 6). -/
def spdlog.level.off : Int := 6

/-- spdlog constant `spdlog::level::n_levels` (= 7), the exclusive upper bound
used by the range checks in logger.cc. -/
def spdlog.level.n_levels : Int := 7

/-- A JavaScript value as seen through the NAN argument checks used in logger.cc
(`IsString`, `IsNumber`; anything else only ever flows into the failing branches).
JavaScript numbers are modelled as the integers produced by the code's
`Nan::To<int64_t>` conversion. -/
inductive JsValue where
  | str (s : String)
  | num (n : Int)
  | boolean (b : Bool)
  | undef
  deriving DecidableEq, Repr

/-- `info[i]->IsString()` of logger.cc. -/
def jsIsString : JsValue → Bool
  | .str _ => true
  | _ => false

/-- `info[i]->IsNumber()` of logger.cc. -/
def jsIsNumber : JsValue → Bool
  | .num _ => true
  | _ => false

/-- The host exceptions thrown by logger.cc (one constructor per distinct
`Nan::ThrowError` message) plus the spdlog registry's duplicate-name failure
surfaced through the try/catch of `Logger::New`. -/
inductive NanError where
  | provideLoggerName
  | provideLogAndFileName
  | provideSizeAndFiles
  | provideLevel
  | provideFlushLevel
  | invalidLevel
  | provideMessage
  | providePattern
  | duplicateLoggerName
  deriving DecidableEq, Repr

/-- The sink configuration a logger was constructed with: the stdout (console)
sink, or a rotating file sink with the file name, max size and max files passed
at construction. -/
inductive SinkSpec where
  | console
  | rotatingFile (fileName : String) (maxSize : Int) (maxFiles : Int)
  deriving DecidableEq, Repr

/-- Modelled from the spec: an `spdlog::logger` object (the bundled spdlog
library is not under src/).  Per the spec's data model a Logger owns a name, a
current level threshold, its sinks, and the sync/async dispatch choice fixed at
construction; emitted records, the active pattern, the void-formatter flag and
a flush counter record its observable history. -/
structure LoggerCore where
  name : String
  level : Int
  isAsync : Bool
  sink : SinkSpec
  records : List (Int × String)
  pattern : String
  voidFormatter : Bool
  flushes : Nat
  deriving DecidableEq, Repr

/-- Modelled from the spec: the process-wide spdlog state.  `heap` holds every
logger object ever constructed (a `shared_ptr` target is an index into it, so a
wrapped handle can outlive the registry entry), `registry` is the spdlog
name-to-logger map, and the two globals are the defaults set by
`spdlog::set_level` / `spdlog::flush_on`. -/
structure GlobalState where
  heap : List LoggerCore
  registry : List (String × Nat)
  globalLevel : Int
  globalFlushLevel : Int
  deriving DecidableEq, Repr

/-- The wrapped `Logger` object of logger.cc: its single internal field is the
`logger_` shared pointer, `none` once dropped (`logger_ = NULL`). -/
structure Handle where
  ptr : Option Nat
  deriving DecidableEq, Repr

/-- Modelled from the spec: `spdlog::get` — registry lookup by name
(the registry enforces name uniqueness, so first match is the match). -/
def registryGet (name : String) : List (String × Nat) → Option Nat
  | [] => none
  | (n, i) :: rest => if n = name then some i else registryGet name rest

/-- Modelled from the spec: `spdlog::drop(name)` — removes the named entry from
the registry map; a no-op when the name is absent, and it never fails. -/
def registryErase (name : String) : List (String × Nat) → List (String × Nat)
  | [] => []
  | (n, i) :: rest =>
      if n = name then registryErase name rest else (n, i) :: registryErase name rest

/-- Replace the logger object at a heap index by the updated object. -/
def heapModify (f : LoggerCore → LoggerCore) : Nat → List LoggerCore → List LoggerCore
  | _, [] => []
  | 0, c :: rest => f c :: rest
  | n + 1, c :: rest => c :: heapModify f n rest

/-- The spdlog state at module load: empty registry, default level `info`,
default flush level `off`. -/
def initState : GlobalState :=
  { heap := [], registry := [], globalLevel := spdlog.level.info,
    globalFlushLevel := spdlog.level.off }

/-- The free function `NAN_METHOD(setLevel)` of logger.cc: number check, range
check against `[trace, n_levels)`, then `spdlog::set_level` (modelled from the
spec as setting the process-wide default level). -/
def setLevel (st : GlobalState) (arg : JsValue) : Except NanError GlobalState :=
  match arg with
  | .num n =>
      if spdlog.level.n_levels ≤ n ∨ n < spdlog.level.trace then
        .error .invalidLevel
      else
        .ok { st with globalLevel := n }
  | _ => .error .provideLevel

/-- The free function `NAN_METHOD(setFlushOn)` of logger.cc: number check, range
check, then `spdlog::flush_on` (modelled from the spec as setting the
process-wide flush threshold). -/
def setFlushOn (st : GlobalState) (arg : JsValue) : Except NanError GlobalState :=
  match arg with
  | .num n =>
      if spdlog.level.n_levels ≤ n ∨ n < spdlog.level.trace then
        .error .invalidLevel
      else
        .ok { st with globalFlushLevel := n }
  | _ => .error .provideFlushLevel

/-- A freshly constructed spdlog logger object; new loggers pick up the
registry's current default level. -/
def mkCore (name : String) (lvl : Int) (isAsync : Bool) (sink : SinkSpec) : LoggerCore :=
  { name := name, level := lvl, isAsync := isAsync, sink := sink,
    records := [], pattern := "%+", voidFormatter := false, flushes := 0 }

/-- Register a fresh logger object: append it to the heap and map its name to
its index.  Modelled from the spec: the spdlog factories register the new
logger under its name. -/
def registerFresh (st : GlobalState) (core : LoggerCore) : GlobalState × Handle :=
  ({ st with heap := st.heap ++ [core],
             registry := (core.name, st.heap.length) :: st.registry },
   ⟨some st.heap.length⟩)

/-- `NAN_METHOD(Logger::New)` of logger.cc (construct-call path), arguments
`info[0] .. info[4]`.  For kind "rotating"/"rotating_async" it validates the
strings then the numbers, looks the log name up in the registry and reuses any
existing logger; otherwise it constructs a rotating logger whose async choice
is decided by comparing `logName` — the logger's name, not the kind — against
"rotating_async" (the comparison at line 133 of logger.cc).  For any other
kind string it calls the stdout factory `stdout_logger_st<async_factory>`,
which (modelled from the spec's name-uniqueness invariant) fails on a
duplicate name; that failure surfaces through the surrounding try/catch. -/
def Logger.New (st : GlobalState) (a0 a1 a2 a3 a4 : JsValue) :
    Except NanError (GlobalState × Handle) :=
  match a0 with
  | .str name =>
      if name = "rotating" ∨ name = "rotating_async" then
        match a1, a2 with
        | .str logName, .str fileName =>
            (match a3, a4 with
             | .num maxSize, .num maxFiles =>
                 match registryGet logName st.registry with
                 | some idx => .ok (st, ⟨some idx⟩)
                 | none =>
                     let isAsync := logName = "rotating_async"
                     .ok (registerFresh st
                       (mkCore logName st.globalLevel (decide isAsync)
                         (.rotatingFile fileName maxSize maxFiles)))
             | _, _ => .error .provideSizeAndFiles)
        | _, _ => .error .provideLogAndFileName
      else
        match registryGet name st.registry with
        | some _ => .error .duplicateLoggerName
        | none => .ok (registerFresh st (mkCore name st.globalLevel true .console))
  | _ => .error .provideLoggerName

/-- `logger_->critical(msg)` and friends: append the record when the message
level passes the logger's threshold (spdlog `should_log`). -/
def coreLog (lvl : Int) (msg : String) (c : LoggerCore) : LoggerCore :=
  if c.level ≤ lvl then { c with records := c.records ++ [(lvl, msg)] } else c

/-- The shared shape of the six emit methods of logger.cc
(`Logger::Critical` .. `Logger::Trace`): string check first, then — only when
the handle is still live — forward to the spdlog logger; always returns
`info.This()`. -/
def logEmit (st : GlobalState) (h : Handle) (lvl : Int) (arg : JsValue) :
    Except NanError (GlobalState × Handle) :=
  match arg with
  | .str msg =>
      match h.ptr with
      | some idx => .ok ({ st with heap := heapModify (coreLog lvl msg) idx st.heap }, h)
      | none => .ok (st, h)
  | _ => .error .provideMessage

/-- `NAN_METHOD(Logger::Critical)`. -/
def Logger.Critical (st : GlobalState) (h : Handle) (arg : JsValue) :
    Except NanError (GlobalState × Handle) :=
  logEmit st h spdlog.level.critical arg

/-- `NAN_METHOD(Logger::Error)`. -/
def Logger.Error (st : GlobalState) (h : Handle) (arg : JsValue) :
    Except NanError (GlobalState × Handle) :=
  logEmit st h spdlog.level.err arg

/-- `NAN_METHOD(Logger::Warn)`. -/
def Logger.Warn (st : GlobalState) (h : Handle) (arg : JsValue) :
    Except NanError (GlobalState × Handle) :=
  logEmit st h spdlog.level.warn arg

/-- `NAN_METHOD(Logger::Info)`. -/
def Logger.Info (st : GlobalState) (h : Handle) (arg : JsValue) :
    Except NanError (GlobalState × Handle) :=
  logEmit st h spdlog.level.info arg

/-- `NAN_METHOD(Logger::Debug)`. -/
def Logger.Debug (st : GlobalState) (h : Handle) (arg : JsValue) :
    Except NanError (GlobalState × Handle) :=
  logEmit st h spdlog.level.debug arg

/-- `NAN_METHOD(Logger::Trace)`. -/
def Logger.Trace (st : GlobalState) (h : Handle) (arg : JsValue) :
    Except NanError (GlobalState × Handle) :=
  logEmit st h spdlog.level.trace arg

/-- `NAN_METHOD(Logger::GetLevel)`: sets the return value (an integer) only
when the handle is live; on a dropped handle nothing is set, so the host sees
`undefined` — modelled as `none`. -/
def Logger.GetLevel (st : GlobalState) (h : Handle) : Option Int :=
  match h.ptr with
  | some idx => (st.heap[idx]?).map LoggerCore.level
  | none => none

/-- `NAN_METHOD(Logger::SetLevel)`: number check first; the range check and the
mutation happen only inside the `if (obj->logger_)` guard, so a dropped handle
skips validation entirely; always returns `info.This()` on success. -/
def Logger.SetLevel (st : GlobalState) (h : Handle) (arg : JsValue) :
    Except NanError (GlobalState × Handle) :=
  match arg with
  | .num n =>
      match h.ptr with
      | some idx =>
          if spdlog.level.n_levels ≤ n ∨ n < spdlog.level.trace then
            .error .invalidLevel
          else
            .ok ({ st with heap := heapModify (fun c => { c with level := n }) idx st.heap }, h)
      | none => .ok (st, h)
  | _ => .error .provideLevel

/-- `NAN_METHOD(Logger::Flush)`: forwards to `logger_->flush()` when live
(observable here as a flush-counter tick); returns `info.This()`. -/
def Logger.Flush (st : GlobalState) (h : Handle) :
    Except NanError (GlobalState × Handle) :=
  match h.ptr with
  | some idx =>
      .ok ({ st with heap := heapModify (fun c => { c with flushes := c.flushes + 1 }) idx st.heap }, h)
  | none => .ok (st, h)

/-- `NAN_METHOD(Logger::Drop)`: when live, reads the logger's name, nulls the
internal pointer, then `spdlog::drop(name)`; a dropped handle is a no-op.
Either way it returns `info.This()` and never throws. -/
def Logger.Drop (st : GlobalState) (h : Handle) :
    Except NanError (GlobalState × Handle) :=
  match h.ptr with
  | some idx =>
      match st.heap[idx]? with
      | some c => .ok ({ st with registry := registryErase c.name st.registry }, ⟨none⟩)
      | none => .ok (st, ⟨none⟩)
  | none => .ok (st, h)

/-- `NAN_METHOD(Logger::SetPattern)`: string check, then `set_pattern` when
live; returns `info.This()`. -/
def Logger.SetPattern (st : GlobalState) (h : Handle) (arg : JsValue) :
    Except NanError (GlobalState × Handle) :=
  match arg with
  | .str p =>
      match h.ptr with
      | some idx =>
          .ok ({ st with heap := heapModify (fun c => { c with pattern := p }) idx st.heap }, h)
      | none => .ok (st, h)
  | _ => .error .providePattern

/-- `NAN_METHOD(Logger::ClearFormatters)`: no argument validation at all (the
stringification of `info[0]` cannot fail); installs the void formatter when
live; returns `info.This()`. -/
def Logger.ClearFormatters (st : GlobalState) (h : Handle) (_arg : JsValue) :
    Except NanError (GlobalState × Handle) :=
  match h.ptr with
  | some idx =>
      .ok ({ st with heap := heapModify (fun c => { c with voidFormatter := true }) idx st.heap }, h)
  | none => .ok (st, h)

/-- `true` exactly on the non-throwing side of a NAN call. -/
def exceptIsOk {ε α : Type} : Except ε α → Bool
  | .ok _ => true
  | .error _ => false

/-- Modelled from the spec: the state of spdlog's rotating file sink (the sink
implementation is part of the bundled spdlog library, not of src/).  Following
the spec's data model: target size limit, file-count limit, the list of files
(index 0 = the currently open base file, each file the list of its formatted
records), and the current file's size counter. -/
structure RotSink where
  maxSize : Nat
  maxFiles : Nat
  files : List (List String)
  currentSize : Nat
  deriving DecidableEq, Repr

/-- Modelled from the spec: the byte length of a formatted record, message
plus newline. -/
def formattedLen (msg : String) : Nat := msg.length + 1

/-- Modelled from the spec: sink construction opens (or creates) the base file
empty at index 0. -/
def rotInit (s n : Nat) : RotSink :=
  { maxSize := s, maxFiles := n, files := [[]], currentSize := 0 }

/-- Modelled from the spec: rotation — the file previously at maxFiles-1 is
deleted, every other file shifts to the next index, the base path reopens as
index 0 truncated empty, and the size counter resets. -/
def rotRotate (t : RotSink) : RotSink :=
  { t with files := [] :: t.files.take (t.maxFiles - 1), currentSize := 0 }

/-- Append a record to the currently open file (index 0). -/
def pushRecord : List (List String) → String → List (List String)
  | [], msg => [[msg]]
  | f :: rest, msg => (f ++ [msg]) :: rest

/-- Modelled from the spec: one write — if the formatted length would push the
current file past maxSize, rotate first; then write the record and add its
length to the size counter. -/
def rotWrite (t : RotSink) (msg : String) : RotSink :=
  if t.maxSize < t.currentSize + formattedLen msg then
    let r := rotRotate t
    { r with files := pushRecord r.files msg, currentSize := r.currentSize + formattedLen msg }
  else
    { t with files := pushRecord t.files msg, currentSize := t.currentSize + formattedLen msg }

/-- The sink states at the start of each successive write (and after the last
one): the observation points of the size invariant. -/
def rotStates (t : RotSink) : List String → List RotSink
  | [] => [t]
  | m :: ms => t :: rotStates (rotWrite t m) ms

/-- The rotating sink's structural invariant for limits `s`, `n`: the limits
are those it was built with, the open file is within the size limit, and
between 1 and `n` files exist. -/
def rotInv (s n : Nat) (t : RotSink) : Prop :=
  t.maxSize = s ∧ t.maxFiles = n ∧ t.currentSize ≤ s ∧
    t.files.length ≤ n ∧ 1 ≤ t.files.length

/-- A concrete creation through the rotating path: kind "rotating", log name
"app". -/
def demoCreate : Except NanError (GlobalState × Handle) :=
  Logger.New initState (JsValue.str "rotating") (JsValue.str "app")
    (JsValue.str "a.log") (JsValue.num 1024) (JsValue.num 5)

/-- The spdlog state right after `demoCreate`. -/
def demoSt : GlobalState :=
  match demoCreate with
  | .ok (st, _) => st
  | .error _ => initState

/-- The live handle produced by `demoCreate`. -/
def demoH : Handle :=
  match demoCreate with
  | .ok (_, h) => h
  | .error _ => ⟨none⟩

/-- The state after `demoSt` once `setLevel(err)` ran through `demoH`. -/
def demoSetSt : GlobalState :=
  match Logger.SetLevel demoSt demoH (JsValue.num spdlog.level.err) with
  | .ok (st, _) => st
  | .error _ => initState

/-- The state after dropping `demoH`. -/
def demoDropSt : GlobalState :=
  match Logger.Drop demoSt demoH with
  | .ok (st, _) => st
  | .error _ => initState

/-- A concrete creation with kind "rotating_async" but log name "app": the
failing input of the async-dispatch claim. -/
def asyncKindSt : GlobalState :=
  match Logger.New initState (JsValue.str "rotating_async") (JsValue.str "app")
      (JsValue.str "a.log") (JsValue.num 1024) (JsValue.num 5) with
  | .ok (st, _) => st
  | .error _ => initState

/-- A concrete creation with kind "rotating" but log name "rotating_async":
the converse probe for the async-dispatch choice. -/
def asyncNameSt : GlobalState :=
  match Logger.New initState (JsValue.str "rotating") (JsValue.str "rotating_async")
      (JsValue.str "a.log") (JsValue.num 1024) (JsValue.num 5) with
  | .ok (st, _) => st
  | .error _ => initState

/-- A concrete creation through the console path (kind/name "app"). -/
def consoleSt : GlobalState :=
  match Logger.New initState (JsValue.str "app") JsValue.undef JsValue.undef
      JsValue.undef JsValue.undef with
  | .ok (st, _) => st
  | .error _ => initState

/-! Helper lemmas. -/

theorem registryGet_erase_self (name : String) (reg : List (String × Nat)) :
    registryGet name (registryErase name reg) = none := by
  induction reg with
  | nil => rfl
  | cons p rest ih =>
      obtain ⟨n, i⟩ := p
      by_cases hn : n = name
      · simp [registryErase, hn, ih]
      · simp [registryErase, registryGet, hn, ih]

theorem registryGet_cons_self (name : String) (i : Nat) (reg : List (String × Nat)) :
    registryGet name ((name, i) :: reg) = some i := by
  simp [registryGet]

theorem heapModify_getElem (f : LoggerCore → LoggerCore) (idx : Nat) (l : List LoggerCore) :
    (heapModify f idx l)[idx]? = (l[idx]?).map f := by
  induction l generalizing idx with
  | nil => simp [heapModify]
  | cons c rest ih =>
      cases idx with
      | zero => simp [heapModify]
      | succ k => simpa [heapModify] using ih k

theorem setLevel_then_getLevel (st st1 : GlobalState) (h h1 : Handle) (idx : Nat)
    (hp : h.ptr = some idx) (hlt : idx < st.heap.length) (n : Int)
    (hL1 : spdlog.level.trace ≤ n) (hL2 : n < spdlog.level.n_levels)
    (hrun : Logger.SetLevel st h (JsValue.num n) = .ok (st1, h1)) :
    h1 = h ∧ Logger.GetLevel st1 h = some n := by
  have hcond : ¬ (spdlog.level.n_levels ≤ n ∨ n < spdlog.level.trace) := by
    simp only [spdlog.level.n_levels, spdlog.level.trace] at *
    omega
  simp only [Logger.SetLevel, hp, if_neg hcond, Except.ok.injEq, Prod.mk.injEq] at hrun
  obtain ⟨hst, hh⟩ := hrun
  subst hst
  subst hh
  refine ⟨rfl, ?_⟩
  have hsome : st.heap[idx]? = some st.heap[idx] := List.getElem?_eq_getElem hlt
  simp [Logger.GetLevel, hp, heapModify_getElem, hsome]

/-! Claim theorems. -/

/-- Claim C1 (code bug evidence): evaluating `Logger::New` at the failing input
shows the sync/async choice following the logger's name, not the kind argument.
With kind "rotating_async" and log name "app" the constructed logger is
synchronous (`isAsync = false`), while with kind "rotating" and log name
"rotating_async" it is asynchronous — because line 133 of logger.cc compares
`logName` instead of the kind string against "rotating_async". -/
theorem C1_async_choice_follows_logger_name :
    ((asyncKindSt.heap[0]?).map LoggerCore.isAsync = some false) ∧
    ((asyncNameSt.heap[0]?).map LoggerCore.isAsync = some true) :=
  ⟨rfl, rfl⟩

/-- Claim C2, counterexample: the claim fails as stated.  `off` (= 6) lies
outside `[trace, off)`, yet `setLevel(6)` on a live handle succeeds (the code
rejects only values `≥ n_levels = 7` or `< trace`); moreover on a dropped
handle no range validation happens at all, so `setLevel(99)` silently
succeeds there. -/
theorem C2_counterexample :
    ¬ ((6 : Int) < spdlog.level.off) ∧
    exceptIsOk (Logger.SetLevel demoSt demoH (JsValue.num 6)) = true ∧
    Logger.Drop demoSt demoH = Except.ok (demoDropSt, Handle.mk none) ∧
    exceptIsOk (Logger.SetLevel demoDropSt (Handle.mk none) (JsValue.num 99)) = true :=
  ⟨by decide, rfl, rfl, rfl⟩

/-- Claim C2, amended: for every live logger handle and every integer n outside
`[trace, off]` (equivalently outside `[trace, n_levels)`), `setLevel(n)` fails
with InvalidLevel; the failing call returns no new state, so the logger's level
is unchanged (the range check sits before the mutation).  On a dropped handle
the validation is skipped and the call silently returns self. -/
theorem C2_setLevel_rejects_out_of_range (st : GlobalState) (h : Handle) (idx : Nat)
    (hp : h.ptr = some idx) (n : Int)
    (hn : n < spdlog.level.trace ∨ spdlog.level.n_levels ≤ n) :
    Logger.SetLevel st h (JsValue.num n) = .error .invalidLevel := by
  simp only [Logger.SetLevel, hp]
  rw [if_pos (Or.symm hn)]

/-- Witness for the amended C2 theorem at the concrete live handle of
`demoCreate` and the out-of-range value 7. -/
theorem C2_setLevel_rejects_out_of_range_witness :
    Logger.SetLevel demoSt demoH (JsValue.num 7) = .error .invalidLevel :=
  C2_setLevel_rejects_out_of_range demoSt demoH 0 rfl 7 (Or.inr (by decide))

/-- Claim C4: on a live handle, `setLevel(L)` with a valid level L followed by
`getLevel()` returns exactly L. -/
theorem C4_setLevel_then_getLevel (st st1 : GlobalState) (h h1 : Handle) (idx : Nat)
    (hp : h.ptr = some idx) (hlt : idx < st.heap.length) (L : Int)
    (hL1 : spdlog.level.trace ≤ L) (hL2 : L < spdlog.level.n_levels)
    (hrun : Logger.SetLevel st h (JsValue.num L) = .ok (st1, h1)) :
    Logger.GetLevel st1 h1 = some L := by
  obtain ⟨hh, hget⟩ := setLevel_then_getLevel st st1 h h1 idx hp hlt L hL1 hL2 hrun
  rw [hh]
  exact hget

/-- Witness for C4: setting level `err` (= 4) through the concrete demo handle
and reading it back yields 4. -/
theorem C4_setLevel_then_getLevel_witness :
    Logger.GetLevel demoSetSt demoH = some 4 :=
  C4_setLevel_then_getLevel demoSt demoSetSt demoH demoH 0 rfl (by decide) 4
    (by decide) (by decide) rfl

/-- Claim C3, counterexample: the claim fails for the console path.  A first
creation with name "app" succeeds, but a second creation with the same name
does not return a handle to the same logger — the stdout factory fails on the
duplicate name, so the call throws instead. -/
theorem C3_counterexample :
    exceptIsOk (Logger.New initState (JsValue.str "app") JsValue.undef JsValue.undef
      JsValue.undef JsValue.undef) = true ∧
    Logger.New consoleSt (JsValue.str "app") JsValue.undef JsValue.undef
      JsValue.undef JsValue.undef = .error .duplicateLoggerName :=
  ⟨rfl, rfl⟩

/-- Claim C3, amended: for the kinds "rotating" and "rotating_async", two
creation calls with the same log name return handles referring to the same
underlying registered logger — the second call leaves the state unchanged and
reuses the registry entry, ignoring the file/size/count arguments — so a level
change through the first handle is observable through the second; for the
console path a second creation with the same name fails instead.  The
hypothesis `hwf` states that registry entries point into the heap (true of
every reachable state). -/
theorem C3_rotating_creation_reuses_registry (st st1 : GlobalState)
    (k1 k2 logName f1 f2 : String) (sz1 fl1 sz2 fl2 : Int) (h1 : Handle)
    (hwf : ∀ nm i, registryGet nm st.registry = some i → i < st.heap.length)
    (hk1 : k1 = "rotating" ∨ k1 = "rotating_async")
    (hk2 : k2 = "rotating" ∨ k2 = "rotating_async")
    (hrun : Logger.New st (JsValue.str k1) (JsValue.str logName) (JsValue.str f1)
      (JsValue.num sz1) (JsValue.num fl1) = .ok (st1, h1)) :
    Logger.New st1 (JsValue.str k2) (JsValue.str logName) (JsValue.str f2)
      (JsValue.num sz2) (JsValue.num fl2) = .ok (st1, h1) ∧
    ∀ L st2 h2, spdlog.level.trace ≤ L → L < spdlog.level.n_levels →
      Logger.SetLevel st1 h1 (JsValue.num L) = .ok (st2, h2) →
      Logger.GetLevel st2 h1 = some L := by
  simp only [Logger.New, if_pos hk1] at hrun
  cases hreg : registryGet logName st.registry with
  | some idx =>
      rw [hreg] at hrun
      simp only [Except.ok.injEq, Prod.mk.injEq] at hrun
      obtain ⟨hst, hh⟩ := hrun
      subst hst
      subst hh
      constructor
      · simp only [Logger.New, if_pos hk2, hreg]
      · intro L st2 h2 hL1 hL2 hsl
        exact ((setLevel_then_getLevel _ st2 _ h2 idx rfl
          (hwf logName idx hreg) L hL1 hL2 hsl).2)
  | none =>
      rw [hreg] at hrun
      simp only [registerFresh, Except.ok.injEq, Prod.mk.injEq] at hrun
      obtain ⟨hst, hh⟩ := hrun
      subst hst
      subst hh
      constructor
      · simp only [Logger.New, if_pos hk2, registerFresh, registryGet_cons_self, mkCore]
      · intro L st2 h2 hL1 hL2 hsl
        have hlt : st.heap.length < (registerFresh st (mkCore logName st.globalLevel
            (decide (logName = "rotating_async"))
            (.rotatingFile f1 sz1 fl1))).1.heap.length := by
          simp [registerFresh]
        exact ((setLevel_then_getLevel _ st2 _ h2 st.heap.length rfl hlt
          L hL1 hL2 hsl).2)

/-- Witness for the amended C3 theorem: after the concrete rotating creation of
`demoCreate` (kind "rotating", log name "app"), a second creation with kind
"rotating_async", the same log name and different sink parameters returns the
same state and the same handle. -/
theorem C3_rotating_creation_reuses_registry_witness :
    Logger.New demoSt (JsValue.str "rotating_async") (JsValue.str "app")
      (JsValue.str "b.log") (JsValue.num 9) (JsValue.num 3) = .ok (demoSt, demoH) :=
  (C3_rotating_creation_reuses_registry initState demoSt "rotating" "rotating_async"
    "app" "a.log" "b.log" 1024 5 9 3 demoH
    (fun nm i hh => by simp [initState, registryGet] at hh)
    (Or.inl rfl) (Or.inr rfl) rfl).1

theorem pushRecord_length (l : List (List String)) (m : String) :
    (pushRecord l m).length = max 1 l.length := by
  cases l with
  | nil => simp [pushRecord]
  | cons f rest => simp [pushRecord]

theorem pushRecord_tail (l : List (List String)) (m : String) :
    (pushRecord l m).tail = l.tail := by
  cases l <;> simp [pushRecord]

theorem rotWrite_inv (s n : Nat) (t : RotSink) (m : String)
    (hn : 1 ≤ n) (hinv : rotInv s n t) (hm : formattedLen m ≤ s) :
    rotInv s n (rotWrite t m) := by
  obtain ⟨hms, hmf, hcs, hfl, hfp⟩ := hinv
  unfold rotWrite
  split
  case isTrue hx =>
      refine ⟨hms, hmf, ?_, ?_, ?_⟩
      · simpa [rotRotate] using hm
      · simp [rotRotate, pushRecord_length, List.length_take, hmf]
        omega
      · simp [rotRotate, pushRecord_length]
  case isFalse hx =>
      refine ⟨hms, hmf, ?_, ?_, ?_⟩
      · simp only [not_lt] at hx
        show t.currentSize + formattedLen m ≤ s
        omega
      · simp [pushRecord_length]
        omega
      · simp [pushRecord_length]

theorem rotStates_inv (s n : Nat) (hn : 1 ≤ n) (msgs : List String) :
    ∀ t, rotInv s n t → (∀ m ∈ msgs, formattedLen m ≤ s) →
      ∀ u ∈ rotStates t msgs, rotInv s n u := by
  induction msgs with
  | nil =>
      intro t ht _ u hu
      simp [rotStates] at hu
      subst hu
      exact ht
  | cons m ms ih =>
      intro t ht hb u hu
      simp only [rotStates, List.mem_cons] at hu
      rcases hu with rfl | hu
      · exact ht
      · exact ih (rotWrite t m)
          (rotWrite_inv s n t m hn ht (hb m (List.mem_cons_self m ms)))
          (fun x hx => hb x (List.mem_cons_of_mem m hx)) u hu

/-- Claim C5, counterexample: the size invariant fails as stated.  With
`maxSize = 2` and a record whose formatted length (4, message "abc" plus
newline) exceeds the limit by itself, the state at the start of the second
write of the run `["abc", "x"]` has current size 4 > 2: rotation cannot bring
an oversized record under the limit. -/
theorem C5_counterexample :
    rotWrite (rotInit 2 2) "abc" ∈ rotStates (rotInit 2 2) ["abc", "x"] ∧
    ¬ ((rotWrite (rotInit 2 2) "abc").currentSize ≤ (rotInit 2 2).maxSize) := by
  decide

/-- Claim C5, amended (modelled from the spec, the rotating file sink being
part of the bundled spdlog library, not of src/): for a rotating sink with
limits `maxSize = s` and `maxFiles = n ≥ 1`, provided every record's formatted
length is at most `s`: at the start of every write the current file size is at
most `s` and at most `n` files exist; whenever a write would exceed `s`,
exactly one rotation happens first — afterwards file 0 holds only the new
record, the prior files are shifted one index up with the oldest dropped, and
the size counter restarts from that record's length; and a write that fits
performs no rotation, only appending to file 0. -/
theorem C5_rotation_invariants (s n : Nat) (hn : 1 ≤ n) (msgs : List String)
    (hb : ∀ m ∈ msgs, formattedLen m ≤ s) :
    (∀ u ∈ rotStates (rotInit s n) msgs,
      u.currentSize ≤ s ∧ u.files.length ≤ n) ∧
    (∀ t m, t.maxSize < t.currentSize + formattedLen m →
      (rotWrite t m).files.head? = some [m] ∧
      (rotWrite t m).files.tail = t.files.take (t.maxFiles - 1) ∧
      (rotWrite t m).currentSize = formattedLen m) ∧
    (∀ t m, t.currentSize + formattedLen m ≤ t.maxSize →
      (rotWrite t m).files.tail = t.files.tail ∧
      (rotWrite t m).currentSize = t.currentSize + formattedLen m) := by
  refine ⟨?_, ?_, ?_⟩
  · intro u hu
    have hinit : rotInv s n (rotInit s n) := by
      refine ⟨rfl, rfl, ?_, ?_, ?_⟩ <;> simp [rotInit]
      omega
    have := rotStates_inv s n hn msgs (rotInit s n) hinit hb u hu
    exact ⟨this.2.2.1, this.2.2.2.1⟩
  · intro t m hx
    unfold rotWrite
    rw [if_pos hx]
    simp [rotRotate, pushRecord]
  · intro t m hx
    unfold rotWrite
    rw [if_neg (not_lt.mpr hx)]
    simp [pushRecord_tail]

/-- Witness for the amended C5 theorem: a concrete run with `maxSize = 5`,
`maxFiles = 2` and the in-bound records "ab", "cd"; after the first write the
sink is still within both limits. -/
theorem C5_rotation_invariants_witness :
    (rotWrite (rotInit 5 2) "ab").currentSize ≤ 5 ∧
    (rotWrite (rotInit 5 2) "ab").files.length ≤ 2 :=
  (C5_rotation_invariants 5 2 (by decide) ["ab", "cd"] (by decide)).1
    (rotWrite (rotInit 5 2) "ab") (by decide)

theorem logEmit_nonstring (st : GlobalState) (h : Handle) (lvl : Int) (a : JsValue)
    (ha : jsIsString a = false) :
    logEmit st h lvl a = .error .provideMessage := by
  cases a with
  | str s => simp [jsIsString] at ha
  | num n => rfl
  | boolean b => rfl
  | undef => rfl

theorem logEmit_string (st : GlobalState) (h : Handle) (lvl : Int) (s : String) :
    ∃ st1, logEmit st h lvl (JsValue.str s) = .ok (st1, h) := by
  cases hp : h.ptr with
  | some idx =>
      exact ⟨{ st with heap := heapModify (coreLog lvl s) idx st.heap },
        by simp [logEmit, hp]⟩
  | none => exact ⟨st, by simp [logEmit, hp]⟩

/-- Claim C6: every emit operation throws InvalidArgument ("Provide a message
to log") on a non-string argument — the failing call returns no new state, so
nothing is logged — and on a string argument it returns self (the same
handle). -/
theorem C6_emit_argument_contract :
    (∀ st h a, jsIsString a = false →
      Logger.Critical st h a = .error .provideMessage ∧
      Logger.Error st h a = .error .provideMessage ∧
      Logger.Warn st h a = .error .provideMessage ∧
      Logger.Info st h a = .error .provideMessage ∧
      Logger.Debug st h a = .error .provideMessage ∧
      Logger.Trace st h a = .error .provideMessage) ∧
    (∀ st h s,
      (∃ st1, Logger.Critical st h (JsValue.str s) = .ok (st1, h)) ∧
      (∃ st1, Logger.Error st h (JsValue.str s) = .ok (st1, h)) ∧
      (∃ st1, Logger.Warn st h (JsValue.str s) = .ok (st1, h)) ∧
      (∃ st1, Logger.Info st h (JsValue.str s) = .ok (st1, h)) ∧
      (∃ st1, Logger.Debug st h (JsValue.str s) = .ok (st1, h)) ∧
      (∃ st1, Logger.Trace st h (JsValue.str s) = .ok (st1, h))) := by
  constructor
  · intro st h a ha
    exact ⟨logEmit_nonstring st h _ a ha, logEmit_nonstring st h _ a ha,
      logEmit_nonstring st h _ a ha, logEmit_nonstring st h _ a ha,
      logEmit_nonstring st h _ a ha, logEmit_nonstring st h _ a ha⟩
  · intro st h s
    exact ⟨logEmit_string st h _ s, logEmit_string st h _ s,
      logEmit_string st h _ s, logEmit_string st h _ s,
      logEmit_string st h _ s, logEmit_string st h _ s⟩

/-- Witness for C6: `critical` with a numeric argument on the concrete demo
handle throws "Provide a message to log". -/
theorem C6_emit_argument_contract_witness :
    Logger.Critical demoSt demoH (JsValue.num 3) = .error .provideMessage :=
  (C6_emit_argument_contract.1 demoSt demoH (JsValue.num 3) rfl).1

/-- Claim C7: `drop()` never throws; on a live handle it removes the logger's
registry entry and returns self with the internal pointer nulled, and a second
`drop()` on the resulting handle is a no-op that still returns the handle. -/
theorem C7_drop_contract :
    (∀ st h, ∃ p, Logger.Drop st h = .ok p) ∧
    (∀ st h idx c, h.ptr = some idx → st.heap[idx]? = some c →
      ∀ st1 h1, Logger.Drop st h = .ok (st1, h1) →
        h1 = ⟨none⟩ ∧
        registryGet c.name st1.registry = none ∧
        Logger.Drop st1 h1 = .ok (st1, h1)) := by
  constructor
  · intro st h
    cases hp : h.ptr with
    | some idx =>
        cases hc : st.heap[idx]? with
        | some c =>
            exact ⟨({ st with registry := registryErase c.name st.registry }, ⟨none⟩),
              by simp [Logger.Drop, hp, hc]⟩
        | none => exact ⟨(st, ⟨none⟩), by simp [Logger.Drop, hp, hc]⟩
    | none => exact ⟨(st, h), by simp [Logger.Drop, hp]⟩
  · intro st h idx c hp hc st1 h1 hdrop
    simp only [Logger.Drop, hp, hc, Except.ok.injEq, Prod.mk.injEq] at hdrop
    obtain ⟨hst, hh⟩ := hdrop
    subst hst
    subst hh
    exact ⟨rfl, registryGet_erase_self c.name st.registry, rfl⟩

/-- Witness for C7 at the concrete demo state: dropping the "app" logger
removes its registry entry and a second drop is a no-op. -/
theorem C7_drop_contract_witness :
    Handle.mk none = Handle.mk none ∧
    registryGet "app" demoDropSt.registry = none ∧
    Logger.Drop demoDropSt (Handle.mk none) = .ok (demoDropSt, Handle.mk none) :=
  C7_drop_contract.2 demoSt demoH 0
    (mkCore "app" 2 false (SinkSpec.rotatingFile "a.log" 1024 5)) rfl rfl
    demoDropSt (Handle.mk none) rfl

/-- Claim C8: the process-wide `setLevel` and `setFlushOn` reject every integer
outside the valid level range `[trace, n_levels)` with InvalidLevel — the
failing call returns no new state, so the global defaults are unchanged — and
for every in-range integer they succeed, setting exactly the process-wide
default level respectively the flush threshold. -/
theorem C8_global_setters_contract :
    (∀ st n, (n < spdlog.level.trace ∨ spdlog.level.n_levels ≤ n) →
      setLevel st (JsValue.num n) = .error .invalidLevel ∧
      setFlushOn st (JsValue.num n) = .error .invalidLevel) ∧
    (∀ st n, spdlog.level.trace ≤ n → n < spdlog.level.n_levels →
      setLevel st (JsValue.num n) = .ok { st with globalLevel := n } ∧
      setFlushOn st (JsValue.num n) = .ok { st with globalFlushLevel := n }) := by
  constructor
  · intro st n hn
    constructor
    · simp only [setLevel]
      rw [if_pos (Or.symm hn)]
    · simp only [setFlushOn]
      rw [if_pos (Or.symm hn)]
  · intro st n h1 h2
    have hcond : ¬ (spdlog.level.n_levels ≤ n ∨ n < spdlog.level.trace) := by
      simp only [spdlog.level.n_levels, spdlog.level.trace] at *
      omega
    constructor
    · simp only [setLevel]
      rw [if_neg hcond]
    · simp only [setFlushOn]
      rw [if_neg hcond]

/-- Witness for C8: the out-of-range value 9 is rejected and the in-range value
3 sets the global flush threshold. -/
theorem C8_global_setters_contract_witness :
    setLevel initState (JsValue.num 9) = .error .invalidLevel ∧
    setFlushOn initState (JsValue.num 3) = .ok { initState with globalFlushLevel := 3 } :=
  ⟨(C8_global_setters_contract.1 initState 9 (Or.inr (by decide))).1,
   (C8_global_setters_contract.2 initState 3 (by decide) (by decide)).2⟩

/-- Claim C9: on a dropped handle (internal pointer null), every listed
operation with a well-typed argument silently succeeds, changes no state and
returns the handle itself — including `setLevel` with any numeric argument,
whose range check is skipped on a dropped handle. -/
theorem C9_dropped_handle_silent (st : GlobalState) (h : Handle) (hp : h.ptr = none) :
    (∀ s, Logger.Critical st h (JsValue.str s) = .ok (st, h)) ∧
    (∀ s, Logger.Error st h (JsValue.str s) = .ok (st, h)) ∧
    (∀ s, Logger.Warn st h (JsValue.str s) = .ok (st, h)) ∧
    (∀ s, Logger.Info st h (JsValue.str s) = .ok (st, h)) ∧
    (∀ s, Logger.Debug st h (JsValue.str s) = .ok (st, h)) ∧
    (∀ s, Logger.Trace st h (JsValue.str s) = .ok (st, h)) ∧
    Logger.Flush st h = .ok (st, h) ∧
    (∀ p, Logger.SetPattern st h (JsValue.str p) = .ok (st, h)) ∧
    (∀ a, Logger.ClearFormatters st h a = .ok (st, h)) ∧
    (∀ n, Logger.SetLevel st h (JsValue.num n) = .ok (st, h)) := by
  refine ⟨?_, ?_, ?_, ?_, ?_, ?_, ?_, ?_, ?_, ?_⟩ <;>
    simp [Logger.Critical, Logger.Error, Logger.Warn, Logger.Info, Logger.Debug,
      Logger.Trace, Logger.Flush, Logger.SetPattern, Logger.ClearFormatters,
      Logger.SetLevel, logEmit, hp]

/-- Witness for C9: on the dropped demo handle, `flush` is a silent no-op. -/
theorem C9_dropped_handle_silent_witness :
    Logger.Flush demoDropSt (Handle.mk none) = .ok (demoDropSt, Handle.mk none) :=
  (C9_dropped_handle_silent demoDropSt (Handle.mk none) rfl).2.2.2.2.2.2.1

/-- Claim C10: `getLevel()` on a dropped handle sets no return value (the host
sees undefined, modelled as `none`); on a live handle it returns the logger's
current level as an integer. -/
theorem C10_getLevel_contract (st : GlobalState) (h : Handle) :
    (h.ptr = none → Logger.GetLevel st h = none) ∧
    (∀ idx c, h.ptr = some idx → st.heap[idx]? = some c →
      Logger.GetLevel st h = some c.level) := by
  constructor
  · intro hp
    simp [Logger.GetLevel, hp]
  · intro idx c hp hc
    simp [Logger.GetLevel, hp, hc]

/-- Witness for C10: the dropped demo handle reads back `undefined`. -/
theorem C10_getLevel_contract_witness :
    Logger.GetLevel demoDropSt (Handle.mk none) = none :=
  (C10_getLevel_contract demoDropSt (Handle.mk none)).1 rfl
